import Mathlib

/-!
Verification of the two C artifacts of the tracers repository:

* `probers-codegen/templates/probe_wrapper.c` — an Askama text template that,
  given a provider identifier and a probe descriptor, renders a C wrapper
  function whose body invokes a fixed-arity `STAP_PROBE` tracing macro.
  The template is embedded below as `renderProbeWrapper`, a pure function
  from the two input descriptors to the rendered text, reproducing the
  template byte for byte (tags removed, loops and conditionals made explicit).

* `libstapsdt-sys/src/test-libstapsdt.c` — a build-time capability probe whose
  `main` calls `providerInit("foo")` and then `providerDestroy` on the result.
  It is embedded below as `testMain`, a function from the behaviour of the
  external library (what pointer `providerInit` returns for a given name) and
  the command-line inputs of `main` to the ordered sequence of library calls
  performed together with the process exit status.
-/

/-- A template argument descriptor: the pair consumed by the
`probe_wrapper.c` template as `arg.c_type` and `arg.name`. -/
structure Arg where
  c_type : String
  name : String
deriving DecidableEq, Repr

/-- A probe descriptor: the object consumed by the template as `probe.name`
and `probe.args`. -/
structure Probe where
  name : String
  args : List Arg
deriving DecidableEq, Repr

/-- A provider descriptor, holding a plain name and the disambiguated
`name_with_hash`.  The template reads only the `name_with_hash` field
(as `provider_name_with_hash`). -/
structure Provider where
  name : String
  name_with_hash : String
deriving DecidableEq, Repr

/-- Rendering of one argument inside either loop of the template:
`{{ arg.c_type }} {{ arg.name }}`. -/
def renderArg (a : Arg) : String := a.c_type ++ " " ++ a.name

/-- Rendering of the argument loop
`{%for arg in probe.args %}{{ arg.c_type }} {{ arg.name }}{% if !loop.last %}, {% endif %}{%endfor%}`
appearing on lines 2 and 7 of the template: each argument is rendered by
`renderArg`, and a `", "` separator follows it exactly when it is not the
last element of the loop. -/
def renderArgList : List Arg → String
  | [] => ""
  | [a] => renderArg a
  | a :: b :: rest => renderArg a ++ ", " ++ renderArgList (b :: rest)

/-- Rendering of the macro name on line 4 of the template:
`STAP_PROBE{% if probe.args.len() > 0 %}{{ probe.args.len() }}{% endif %}`. -/
def stapMacroName (args : List Arg) : String :=
  "STAP_PROBE" ++ (if args.length > 0 then toString args.length else "")

/-- The whole `probe_wrapper.c` template, rendered with the Askama default of
preserving literal whitespace.  Each line of the template appears below as one
appended piece, with `\n` for the line ends, `\t` for the literal tabs that
start lines 5 to 7, and no newline after the final brace (the file has none).
Note that line 6 of the template renders `probe.name` with no trailing comma
before the argument loop of line 7. -/
def renderProbeWrapper (provider : Provider) (probe : Probe) : String :=
  "void " ++ provider.name_with_hash ++ "_" ++ probe.name ++ "(\n" ++
  "    " ++ renderArgList probe.args ++ "\n" ++
  ") \x7b\n" ++
  "    " ++ stapMacroName probe.args ++ "(\n" ++
  "\t" ++ provider.name_with_hash ++ ",\n" ++
  "\t" ++ probe.name ++ "\n" ++
  "\t" ++ renderArgList probe.args ++ "\n" ++
  "    );\n" ++
  "\x7d"

/-- The text of lines 4 to 8 of the template, from the macro name through the
closing parenthesis and semicolon: the single statement that forms the body of
the generated wrapper function. -/
def macroCallStmt (provider : Provider) (probe : Probe) : String :=
  stapMacroName probe.args ++ "(\n" ++
  "\t" ++ provider.name_with_hash ++ ",\n" ++
  "\t" ++ probe.name ++ "\n" ++
  "\t" ++ renderArgList probe.args ++ "\n" ++
  "    );"

/-- A pointer value returned by `providerInit`; `none` models `NULL`. -/
abbrev SDTProviderPtr := Option Nat

/-- One call made by the capability probe into the libstapsdt library,
recording the argument it was given. -/
inductive LibCall where
  | providerInit (name : String)
  | providerDestroy (p : SDTProviderPtr)
deriving DecidableEq, Repr

/-- The kind of a library call, with the argument payload erased. -/
inductive LibCallKind where
  | initCall
  | destroyCall
deriving DecidableEq, Repr

/-- Erase the argument of a library call, keeping which function was called. -/
def callKind : LibCall → LibCallKind
  | LibCall.providerInit _ => LibCallKind.initCall
  | LibCall.providerDestroy _ => LibCallKind.destroyCall

/-- Embedding of `main` from `test-libstapsdt.c`.  The external library is
modelled by `providerInitImpl`, giving the pointer `providerInit` returns for
a given provider name; `arc` and `argv` are the command-line inputs of `main`
(named as in the C source).  The result is the ordered list of library calls
the program performs and its exit status: `main` stores the result of
`providerInit("foo")` in `provider`, passes it to `providerDestroy`, and
reaches its closing brace with no return statement, which yields status 0
under C99 5.1.2.2.3. -/
def testMain (providerInitImpl : String → SDTProviderPtr) (arc : Nat)
    (argv : List String) : List LibCall × Int :=
  let provider := providerInitImpl "foo"
  ([LibCall.providerInit "foo", LibCall.providerDestroy provider], 0)

/-- Remove every whitespace character from a string (used to compare rendered
text with the single-line forms the specification quotes). -/
def stripWS (s : String) : String :=
  String.mk (s.toList.filter (fun c => !c.isWhitespace))

/-- Number of occurrences of a character in a string. -/
def countOccurs (c : Char) (s : String) : Nat :=
  (s.toList.filter (fun d => d = c)).length

/-- The accumulator-passing loop of `String.intercalate` prepends the
separator to every remaining element. -/
theorem intercalate_go_spec (s : String) :
    ∀ (l : List String) (acc : String),
    String.intercalate.go acc s l = acc ++ (l.foldr (fun x r => s ++ x ++ r) "") := by
  intro l
  induction l with
  | nil =>
    intro acc
    simp [String.intercalate.go]
  | cons a as ih =>
    intro acc
    rw [String.intercalate.go, ih]
    simp [String.append_assoc]

/-- A nonempty argument list renders as its head with every later element
preceded by exactly one `", "` separator and nothing after the last. -/
theorem renderArgList_cons (a : Arg) (rest : List Arg) :
    renderArgList (a :: rest) =
      renderArg a ++ (rest.map renderArg).foldr (fun x r => ", " ++ x ++ r) "" := by
  induction rest generalizing a with
  | nil => simp [renderArgList]
  | cons b t ih =>
    rw [renderArgList, ih b]
    simp [String.append_assoc]

/-- The argument loop of the template renders exactly the `", "`-intercalation
of the individual argument renderings, in list order. -/
theorem renderArgList_eq_intercalate (args : List Arg) :
    renderArgList args = String.intercalate ", " (args.map renderArg) := by
  cases args with
  | nil => rfl
  | cons a rest =>
    rw [renderArgList_cons]
    show _ = String.intercalate ", " (renderArg a :: rest.map renderArg)
    rw [String.intercalate, intercalate_go_spec]

/-- Occurrence counting distributes over string append. -/
theorem countOccurs_append (c : Char) (s t : String) :
    countOccurs c (s ++ t) = countOccurs c s + countOccurs c t := by
  simp [countOccurs, String.toList, List.filter_append]

/-- Decimal digit characters are never a semicolon. -/
theorem digitChar_ne_semicolon (n : Nat) (h : n < 10) : Nat.digitChar n ≠ ';' := by
  interval_cases n <;> decide

/-- The digit-accumulating loop of `Nat.repr` never produces a semicolon. -/
theorem toDigitsCore_ne_semicolon :
    ∀ (fuel n : Nat) (ds : List Char), (∀ c ∈ ds, c ≠ ';') →
      ∀ c ∈ Nat.toDigitsCore 10 fuel n ds, c ≠ ';' := by
  intro fuel
  induction fuel with
  | zero => intro n ds hds c hc; exact hds c hc
  | succ fuel ih =>
    intro n ds hds c hc
    simp only [Nat.toDigitsCore] at hc
    have hcons : ∀ x ∈ Nat.digitChar (n % 10) :: ds, x ≠ ';' := by
      intro x hx
      rcases List.mem_cons.mp hx with h1 | h1
      · subst h1; exact digitChar_ne_semicolon _ (Nat.mod_lt _ (by decide))
      · exact hds x h1
    split at hc
    · exact hcons c hc
    · exact ih _ _ hcons c hc

/-- The decimal rendering of a natural number contains no semicolon. -/
theorem repr_no_semicolon (n : Nat) : countOccurs ';' (Nat.repr n) = 0 := by
  have h : ∀ c ∈ Nat.toDigits 10 n, c ≠ ';' :=
    toDigitsCore_ne_semicolon (n + 1) n [] (by intro c hc; cases hc)
  simp only [countOccurs, Nat.repr, Nat.toDigits, List.asString, String.toList,
    List.length_eq_zero, List.filter_eq_nil_iff]
  intro a ha
  simpa using h a ha

/-- On natural numbers, `toString` is `Nat.repr`. -/
theorem toString_nat_eq_repr (n : Nat) : toString n = Nat.repr n := rfl

/-- The rendered macro name contains no semicolon. -/
theorem stapMacroName_no_semicolon (args : List Arg) :
    countOccurs ';' (stapMacroName args) = 0 := by
  rw [stapMacroName, countOccurs_append]
  have h10 : countOccurs ';' "STAP_PROBE" = 0 := by decide
  rw [h10]
  split
  · rw [toString_nat_eq_repr, repr_no_semicolon]
  · decide

/-- If no argument field contains a semicolon, neither does the rendered
argument list. -/
theorem renderArgList_no_semicolon (args : List Arg)
    (h : ∀ a ∈ args, countOccurs ';' a.c_type = 0 ∧ countOccurs ';' a.name = 0) :
    countOccurs ';' (renderArgList args) = 0 := by
  induction args with
  | nil => rfl
  | cons a rest ih =>
    obtain ⟨h1, h2⟩ := h a (List.mem_cons_self a rest)
    have hrest := fun x hx => h x (List.mem_cons_of_mem a hx)
    cases rest with
    | nil =>
      simp [renderArgList, renderArg, countOccurs_append, h1, h2]
      decide
    | cons b t =>
      rw [renderArgList, countOccurs_append, countOccurs_append]
      rw [renderArg, countOccurs_append, countOccurs_append, h1, h2, ih hrest]
      decide

/-- The rendered wrapper decomposes as a `void` function header, a parameter
list, and a body holding `macroCallStmt` between the braces. -/
theorem renderProbeWrapper_decomp (p : Provider) (pr : Probe) :
    renderProbeWrapper p pr =
      "void " ++ p.name_with_hash ++ "_" ++ pr.name ++ "(\n" ++
      "    " ++ renderArgList pr.args ++ "\n" ++
      ") \x7b\n" ++
      "    " ++ macroCallStmt p pr ++ "\n" ++
      "\x7d" := by
  have hsplit : ("    );\n" : String) = "    );" ++ "\n" := rfl
  rw [renderProbeWrapper, macroCallStmt, hsplit]
  simp [String.append_assoc]

/-- When no descriptor field contains a semicolon, the body statement of the
generated wrapper contains exactly one: the one ending the macro call. -/
theorem macroCallStmt_one_semicolon (p : Provider) (pr : Probe)
    (hph : countOccurs ';' p.name_with_hash = 0)
    (hpn : countOccurs ';' pr.name = 0)
    (hargs : ∀ a ∈ pr.args, countOccurs ';' a.c_type = 0 ∧ countOccurs ';' a.name = 0) :
    countOccurs ';' (macroCallStmt p pr) = 1 := by
  rw [macroCallStmt]
  simp only [countOccurs_append]
  rw [stapMacroName_no_semicolon, hph, hpn, renderArgList_no_semicolon pr.args hargs]
  decide

/-- Claim C1: for the probe named `write` with arguments `int fd` and
`const char* buf` under provider hash name `acme_ab12`, this theorem evaluates
the template.  The signature is `acme_ab12_write(int fd, const char* buf)` as
the claim states, but the macro invocation renders `write` directly followed
by the first argument with no intervening comma: stripped of whitespace the
output reads `STAP_PROBE2(acme_ab12,writeintfd,constchar*buf);`, not the
`STAP_PROBE2(acme_ab12,write,intfd,constchar*buf);` the claim requires. -/
theorem spec_C1_render_write_probe :
    renderProbeWrapper ⟨"acme", "acme_ab12"⟩
        ⟨"write", [⟨"int", "fd"⟩, ⟨"const char*", "buf"⟩]⟩ =
      "void acme_ab12_write(\n    int fd, const char* buf\n) \x7b\n    STAP_PROBE2(\n\tacme_ab12,\n\twrite\n\tint fd, const char* buf\n    );\n\x7d" ∧
    stripWS (renderProbeWrapper ⟨"acme", "acme_ab12"⟩
        ⟨"write", [⟨"int", "fd"⟩, ⟨"const char*", "buf"⟩]⟩) =
      "voidacme_ab12_write(intfd,constchar*buf)\x7bSTAP_PROBE2(acme_ab12,writeintfd,constchar*buf);\x7d" :=
  ⟨rfl, rfl⟩

/-- Claim C2: for every probe descriptor with a nonempty argument list the
rendered macro name is `STAP_PROBE` suffixed with exactly the decimal argument
count, and both renderings of the argument list are the `", "`-intercalation
of exactly one `type name` pair per argument, with no trailing separator. -/
theorem spec_C2_suffix_and_pairs (p : Provider) (pr : Probe)
    (h : 0 < pr.args.length) :
    renderProbeWrapper p pr =
      "void " ++ p.name_with_hash ++ "_" ++ pr.name ++ "(\n" ++
      "    " ++ String.intercalate ", " (pr.args.map renderArg) ++ "\n" ++
      ") \x7b\n" ++
      "    " ++ ("STAP_PROBE" ++ toString pr.args.length) ++ "(\n" ++
      "\t" ++ p.name_with_hash ++ ",\n" ++
      "\t" ++ pr.name ++ "\n" ++
      "\t" ++ String.intercalate ", " (pr.args.map renderArg) ++ "\n" ++
      "    );\n" ++
      "\x7d" ∧
    (pr.args.map renderArg).length = pr.args.length := by
  constructor
  · rw [renderProbeWrapper, stapMacroName, if_pos h, renderArgList_eq_intercalate]
  · simp

/-- Witness for claim C2 at a one-argument probe. -/
theorem spec_C2_suffix_and_pairs_witness :
    0 < ([⟨"int", "fd"⟩] : List Arg).length ∧
    (renderProbeWrapper ⟨"acme", "acme_ab12"⟩ ⟨"write", [⟨"int", "fd"⟩]⟩ =
      "void " ++ "acme_ab12" ++ "_" ++ "write" ++ "(\n" ++
      "    " ++ String.intercalate ", " (([⟨"int", "fd"⟩] : List Arg).map renderArg) ++ "\n" ++
      ") \x7b\n" ++
      "    " ++ ("STAP_PROBE" ++ toString ([⟨"int", "fd"⟩] : List Arg).length) ++ "(\n" ++
      "\t" ++ "acme_ab12" ++ ",\n" ++
      "\t" ++ "write" ++ "\n" ++
      "\t" ++ String.intercalate ", " (([⟨"int", "fd"⟩] : List Arg).map renderArg) ++ "\n" ++
      "    );\n" ++
      "\x7d" ∧
    (([⟨"int", "fd"⟩] : List Arg).map renderArg).length =
      ([⟨"int", "fd"⟩] : List Arg).length) :=
  ⟨by decide,
   spec_C2_suffix_and_pairs ⟨"acme", "acme_ab12"⟩ ⟨"write", [⟨"int", "fd"⟩]⟩ (by decide)⟩

/-- Claim C3: for every probe descriptor with an empty argument list the macro
name renders unsuffixed as `STAP_PROBE`, the argument loop renders the empty
string in both positions, and so the parameter list of the generated signature
holds no parameters and no separators. -/
theorem spec_C3_empty_args (p : Provider) (nm : String) :
    renderArgList ([] : List Arg) = "" ∧
    stapMacroName ([] : List Arg) = "STAP_PROBE" ∧
    renderProbeWrapper p ⟨nm, []⟩ =
      "void " ++ p.name_with_hash ++ "_" ++ nm ++ "(\n" ++
      "    " ++ "" ++ "\n" ++
      ") \x7b\n" ++
      "    " ++ "STAP_PROBE" ++ "(\n" ++
      "\t" ++ p.name_with_hash ++ ",\n" ++
      "\t" ++ nm ++ "\n" ++
      "\t" ++ "" ++ "\n" ++
      "    );\n" ++
      "\x7d" := by
  refine ⟨rfl, rfl, ?_⟩
  rw [renderProbeWrapper]
  rfl

/-- Claim C4: for every pair of descriptors the arguments appear in descriptor
order in both the signature and the macro invocation, rendered as the
`", "`-intercalation of the per-argument renderings, so a separator stands
between every pair of consecutive arguments and never after the last. -/
theorem spec_C4_order_and_separators (p : Provider) (pr : Probe) :
    renderProbeWrapper p pr =
      "void " ++ p.name_with_hash ++ "_" ++ pr.name ++ "(\n" ++
      "    " ++ String.intercalate ", " (pr.args.map renderArg) ++ "\n" ++
      ") \x7b\n" ++
      "    " ++ stapMacroName pr.args ++ "(\n" ++
      "\t" ++ p.name_with_hash ++ ",\n" ++
      "\t" ++ pr.name ++ "\n" ++
      "\t" ++ String.intercalate ", " (pr.args.map renderArg) ++ "\n" ++
      "    );\n" ++
      "\x7d" ∧
    (∀ a rest, renderArgList (a :: rest) =
      renderArg a ++ (rest.map renderArg).foldr (fun x r => ", " ++ x ++ r) "") := by
  constructor
  · rw [renderProbeWrapper, renderArgList_eq_intercalate]
  · exact renderArgList_cons

/-- Claim C5: for provider hash name `acme_ab12`, probe `enter` and no
arguments, the rendered wrapper has signature `acme_ab12_enter()` and its body
invokes the unsuffixed macro with argument text `(acme_ab12, enter)`; the
second conjunct states both facts with the template line layout removed. -/
theorem spec_C5_render_enter_probe :
    renderProbeWrapper ⟨"acme", "acme_ab12"⟩ ⟨"enter", []⟩ =
      "void acme_ab12_enter(\n    \n) \x7b\n    STAP_PROBE(\n\tacme_ab12,\n\tenter\n\t\n    );\n\x7d" ∧
    stripWS (renderProbeWrapper ⟨"acme", "acme_ab12"⟩ ⟨"enter", []⟩) =
      "voidacme_ab12_enter()\x7bSTAP_PROBE(acme_ab12,enter);\x7d" :=
  ⟨rfl, rfl⟩

/-- Claim C6: rendering is a deterministic pure function of the two input
descriptors: renders of equal descriptors are byte-identical. -/
theorem spec_C6_deterministic (p q : Provider) (pr qr : Probe)
    (hp : p = q) (hpr : pr = qr) :
    renderProbeWrapper p pr = renderProbeWrapper q qr := by
  rw [hp, hpr]

/-- Witness for claim C6 at concrete descriptors. -/
theorem spec_C6_deterministic_witness :
    renderProbeWrapper ⟨"acme", "acme_ab12"⟩ ⟨"enter", []⟩ =
      renderProbeWrapper ⟨"acme", "acme_ab12"⟩ ⟨"enter", []⟩ :=
  spec_C6_deterministic ⟨"acme", "acme_ab12"⟩ ⟨"acme", "acme_ab12"⟩
    ⟨"enter", []⟩ ⟨"enter", []⟩ rfl rfl

/-- Claim C7: for every library behaviour and command line, the capability
probe performs exactly two actions in order — `providerInit` on the provider
name and `providerDestroy` on the handle that call returned — and exits with
status 0. -/
theorem spec_C7_init_then_destroy_then_exit_zero
    (impl : String → SDTProviderPtr) (arc : Nat) (argv : List String) :
    testMain impl arc argv =
      ([LibCall.providerInit "foo", LibCall.providerDestroy (impl "foo")], 0) :=
  rfl

/-- Claim C8: the capability probe never branches on the result of
`providerInit`: across all library behaviours and command lines the sequence
of call kinds and the exit status are identical, so no code path tests the
handle (against NULL or anything else) or reacts to a runtime failure. -/
theorem spec_C8_no_branch_on_init_result
    (impl impl2 : String → SDTProviderPtr) (arc arc2 : Nat)
    (argv argv2 : List String) :
    (testMain impl arc argv).1.map callKind =
      (testMain impl2 arc2 argv2).1.map callKind ∧
    (testMain impl arc argv).2 = (testMain impl2 arc2 argv2).2 ∧
    (testMain impl arc argv).1.map callKind =
      [LibCallKind.initCall, LibCallKind.destroyCall] :=
  ⟨rfl, rfl, rfl⟩

/-- Claim C9: the capability probe always passes the literal `"foo"` to
`providerInit` whatever its command line is, its behaviour does not depend on
the command line at all, and the pointer returned by `providerInit` is handed
to `providerDestroy` unchanged — in particular a NULL return is passed on
as-is. -/
theorem spec_C9_literal_foo_and_pointer_passed_through
    (impl : String → SDTProviderPtr) (arc arc2 : Nat)
    (argv argv2 : List String) :
    (testMain impl arc argv).1 =
      [LibCall.providerInit "foo", LibCall.providerDestroy (impl "foo")] ∧
    testMain impl arc argv = testMain impl arc2 argv2 ∧
    (testMain (fun _ => none) arc argv).1 =
      [LibCall.providerInit "foo", LibCall.providerDestroy none] :=
  ⟨rfl, rfl, rfl⟩

/-- Claim C10: for every pair of descriptors whose fields are free of
semicolons, the generated function has return type `void` and its body is
exactly the single macro-call statement: the render splits as header,
parameter list, and a body holding `macroCallStmt` alone; that statement ends
in a semicolon and holds exactly one, while the rest of the render outside it
holds none. -/
theorem spec_C10_void_single_statement (p : Provider) (pr : Probe)
    (hph : countOccurs ';' p.name_with_hash = 0)
    (hpn : countOccurs ';' pr.name = 0)
    (hargs : ∀ a ∈ pr.args, countOccurs ';' a.c_type = 0 ∧ countOccurs ';' a.name = 0) :
    renderProbeWrapper p pr =
      "void " ++ p.name_with_hash ++ "_" ++ pr.name ++ "(\n" ++
      "    " ++ renderArgList pr.args ++ "\n" ++
      ") \x7b\n" ++
      "    " ++ macroCallStmt p pr ++ "\n" ++
      "\x7d" ∧
    countOccurs ';' (macroCallStmt p pr) = 1 ∧
    (∃ s, macroCallStmt p pr = s ++ ";") ∧
    countOccurs ';' ("void " ++ p.name_with_hash ++ "_" ++ pr.name ++ "(\n" ++
      "    " ++ renderArgList pr.args ++ "\n" ++ ") \x7b\n" ++ "    ") = 0 ∧
    countOccurs ';' ("\n" ++ "\x7d") = 0 := by
  refine ⟨renderProbeWrapper_decomp p pr,
    macroCallStmt_one_semicolon p pr hph hpn hargs, ?_, ?_, by decide⟩
  · refine ⟨stapMacroName pr.args ++ "(\n" ++ "\t" ++ p.name_with_hash ++ ",\n" ++
      "\t" ++ pr.name ++ "\n" ++ "\t" ++ renderArgList pr.args ++ "\n" ++ "    )", ?_⟩
    have hsplit : ("    );" : String) = "    )" ++ ";" := rfl
    rw [macroCallStmt, hsplit]
    simp [String.append_assoc]
  · simp only [countOccurs_append]
    rw [hph, hpn, renderArgList_no_semicolon pr.args hargs]
    decide

/-- Witness for claim C10 at a one-argument probe with semicolon-free
fields. -/
theorem spec_C10_void_single_statement_witness :
    (countOccurs ';' "acme_ab12" = 0 ∧ countOccurs ';' "write" = 0 ∧
     (∀ a ∈ ([⟨"int", "fd"⟩] : List Arg),
        countOccurs ';' a.c_type = 0 ∧ countOccurs ';' a.name = 0)) ∧
    (renderProbeWrapper ⟨"acme", "acme_ab12"⟩ ⟨"write", [⟨"int", "fd"⟩]⟩ =
      "void " ++ "acme_ab12" ++ "_" ++ "write" ++ "(\n" ++
      "    " ++ renderArgList [⟨"int", "fd"⟩] ++ "\n" ++
      ") \x7b\n" ++
      "    " ++ macroCallStmt ⟨"acme", "acme_ab12"⟩ ⟨"write", [⟨"int", "fd"⟩]⟩ ++ "\n" ++
      "\x7d" ∧
    countOccurs ';' (macroCallStmt ⟨"acme", "acme_ab12"⟩ ⟨"write", [⟨"int", "fd"⟩]⟩) = 1 ∧
    (∃ s, macroCallStmt ⟨"acme", "acme_ab12"⟩ ⟨"write", [⟨"int", "fd"⟩]⟩ = s ++ ";") ∧
    countOccurs ';' ("void " ++ "acme_ab12" ++ "_" ++ "write" ++ "(\n" ++
      "    " ++ renderArgList [⟨"int", "fd"⟩] ++ "\n" ++ ") \x7b\n" ++ "    ") = 0 ∧
    countOccurs ';' ("\n" ++ "\x7d") = 0) :=
  ⟨⟨by decide, by decide, by decide⟩,
   spec_C10_void_single_statement ⟨"acme", "acme_ab12"⟩ ⟨"write", [⟨"int", "fd"⟩]⟩
     (by decide) (by decide) (by decide)⟩
